import Mathlib

/-!
Verification of the Txt-to-quizzz bot core (src/bot.py) against its
natural-language specification.

The development shallowly embeds the three core components:
  - the quiz-file parser `parse_quiz_file` (bot.py lines 495-533),
  - the access-tier resolver `is_sudo` / `is_premium` / `has_valid_token` /
    `check_access` (bot.py lines 205-228, 295-304, 1292-1344) together with
    the premium-grant command slice `add_premium` (bot.py lines 1034-1078)
    and the gating part of `handle_document` (bot.py lines 535-655),
  - the broadcast delivery loop of `confirm_broadcast` (bot.py lines 839-902).

Python string operations used by the source (str.split, str.strip,
str.lower, str.startswith, int()) are embedded first, faithfully for the
ASCII fragment the bot manipulates (Python additionally treats some
non-ASCII code points as whitespace or digits; nothing below depends on
those).  Timestamps are modelled as integers, the Mongo collections as
association lists keyed by user id, and the module-level caches as explicit
state threaded through each resolver call.
-/

set_option autoImplicit false

namespace TxtQuiz

/-! ## Python string primitives -/

/-- Whitespace characters stripped by Python `str.strip()` (ASCII fragment). -/
def pyIsSpace (c : Char) : Bool :=
  c = ' ' ∨ c = '\t' ∨ c = '\n' ∨ c = '\x0d' ∨ c = '\x0b' ∨ c = '\x0c'

/-- `str.strip()` on a character list: drop leading and trailing whitespace. -/
def pyStripL (cs : List Char) : List Char :=
  ((cs.dropWhile pyIsSpace).reverse.dropWhile pyIsSpace).reverse

/-- Python `str.strip()`. -/
def pyStrip (s : String) : String :=
  String.mk (pyStripL s.toList)

/-- Python `str.lower()` (ASCII fragment: maps A-Z to a-z). -/
def pyLower (s : String) : String :=
  String.mk (s.toList.map Char.toLower)

/-- Python `str.startswith(p)`. -/
def pyStartsWith (s p : String) : Bool :=
  p.toList.isPrefixOf s.toList

/--
Core worker of Python `str.split(sep)` for a non-empty separator
`s0 :: stail`: returns the first segment and the remaining segments.
Recursion is by fuel (one unit per character) so that the definition
reduces in the kernel; callers pass `length + 1` fuel, which is always
sufficient since every step consumes at least one character.
-/
def splitSepCore (s0 : Char) (stail : List Char) :
    Nat → List Char → List Char × List (List Char)
  | 0, _ => ([], [])
  | _ + 1, [] => ([], [])
  | fuel + 1, c :: rest =>
    if (s0 :: stail).isPrefixOf (c :: rest) then
      let p := splitSepCore s0 stail fuel (rest.drop stail.length)
      ([], p.1 :: p.2)
    else
      let p := splitSepCore s0 stail fuel rest
      (c :: p.1, p.2)

/-- Python `s.split(sep)` for a non-empty separator. -/
def pySplit (s sep : String) : List String :=
  match sep.toList with
  | [] => [s]
  | s0 :: stail =>
    let p := splitSepCore s0 stail (s.toList.length + 1) s.toList
    (p.1 :: p.2).map String.mk

/--
Core worker of Python `s.split(sep, 1)` for a one-character separator:
returns the parts before and after the first occurrence, or `none` when
the separator does not occur.
-/
def splitOnceCore (sep : Char) : List Char → Option (List Char × List Char)
  | [] => none
  | c :: rest =>
    if c = sep then some ([], rest)
    else
      match splitOnceCore sep rest with
      | none => none
      | some p => some (c :: p.1, p.2)

/-- Digit value of an ASCII decimal digit. -/
def digitVal (c : Char) : Option Nat :=
  if '0' ≤ c ∧ c ≤ '9' then some (c.toNat - '0'.toNat) else none

/--
Magnitude part of Python `int()`: a non-empty digit string, where single
underscores may separate digits (Python 3 numeric-literal rule).
-/
def pyIntCore : Nat → List Char → Option Nat
  | acc, [] => some acc
  | acc, c :: rest =>
    match digitVal c with
    | some d => pyIntCore (acc * 10 + d) rest
    | none =>
      if c = '_' then
        match rest with
        | [] => none
        | r :: rest2 =>
          match digitVal r with
          | some d => pyIntCore (acc * 10 + d) rest2
          | none => none
      else none

/-- Magnitude of Python `int()`: requires a leading digit. -/
def pyIntMagnitude : List Char → Option Nat
  | [] => none
  | c :: rest =>
    match digitVal c with
    | some d => pyIntCore d rest
    | none => none

/--
Python `int(s)`: optional surrounding whitespace, optional sign, then a
digit string.  Returns `none` where Python raises `ValueError`.
-/
def pyInt? (s : String) : Option Int :=
  match pyStripL s.toList with
  | '+' :: rest => (pyIntMagnitude rest).map Int.ofNat
  | '-' :: rest => (pyIntMagnitude rest).map (fun n => -(Int.ofNat n : Int))
  | cs => (pyIntMagnitude cs).map Int.ofNat

/-! ## The quiz-file parser (bot.py `parse_quiz_file`, lines 495-533) -/

/-- A validated question, as appended to `valid_questions` in the source. -/
structure Question where
  question : String
  options : List String
  correct_id : Nat
  explanation : Option String
deriving DecidableEq, Repr

/-- Outcome of processing one block of the uploaded document. -/
inductive BlockResult where
  | skip
  | ok (q : Question)
  | err (e : String)
deriving DecidableEq, Repr

/-- Error string of line 508: invalid line count. -/
def invalidCountMsg (i n : Nat) : String :=
  "❌ Question " ++ toString i ++ ": Invalid line count (" ++ toString n ++ ")"

/-- Error string of line 518: missing answer prefix. -/
def missingAnswerMsg (i : Nat) : String :=
  "❌ Q" ++ toString i ++ ": Missing \x27Answer:\x27 prefix"

/-- Error string of line 524: answer number out of range. -/
def invalidNumberMsg (i : Nat) (k : Int) : String :=
  "❌ Q" ++ toString i ++ ": Invalid answer number " ++ toString k

/-- Error string of line 527: answer line where int() fails. -/
def malformedMsg (i : Nat) : String :=
  "❌ Q" ++ toString i ++ ": Malformed answer line"

/--
bot.py lines 511-531: processing of a block that passed the line-count
guard.  `l0` is the prompt, `l1`-`l4` the options, `l5` the answer line,
`l6` the optional seventh (explanation) line.
-/
def processSix (i : Nat) (l0 l1 l2 l3 l4 l5 : String) (l6 : Option String) :
    BlockResult :=
  let question := pyStrip l0
  let options := [pyStrip l1, pyStrip l2, pyStrip l3, pyStrip l4]
  let answer_line := pyStrip l5
  if pyStartsWith (pyLower answer_line) "answer:" then
    match splitOnceCore ':' answer_line.toList with
    | none => .err (malformedMsg i)
    | some p =>
      match pyInt? (pyStrip (String.mk p.2)) with
      | none => .err (malformedMsg i)
      | some k =>
        if k < 1 ∨ 4 < k then .err (invalidNumberMsg i k)
        else .ok ⟨question, options, (k - 1).toNat, l6.map pyStrip⟩
  else .err (missingAnswerMsg i)

/--
bot.py lines 505-531: split the block into lines and validate.  Exactly
six or seven lines are accepted; anything else is the invalid-line-count
error of line 508.
-/
def processLines (i : Nat) (ls : List String) : BlockResult :=
  match ls with
  | l0 :: l1 :: l2 :: l3 :: l4 :: l5 :: rest =>
    if rest.length ≤ 1 then processSix i l0 l1 l2 l3 l4 l5 rest.head?
    else .err (invalidCountMsg i ls.length)
  | ls => .err (invalidCountMsg i ls.length)

/--
bot.py lines 502-531: one block of the document.  Blocks that are blank
after stripping are skipped (line 502); the index `i` is the 1-based
position of the block in the raw split (enumerate(blocks, 1)).
-/
def processBlock (i : Nat) (b : String) : BlockResult :=
  if (pyStripL b.toList).isEmpty then .skip
  else processLines i (pySplit b "\n")

/-- The loop of bot.py lines 501-531 over the block list. -/
def parseGo (i : Nat) : List String → List Question × List String
  | [] => ([], [])
  | b :: rest =>
    let tail := parseGo (i + 1) rest
    match processBlock i b with
    | .skip => tail
    | .ok q => (q :: tail.1, tail.2)
    | .err e => (tail.1, e :: tail.2)

/--
bot.py `parse_quiz_file` (lines 495-533): split the document on blank
lines and process each block, returning the valid questions and the error
strings in document order.
-/
def parse_quiz_file (content : String) : List Question × List String :=
  parseGo 1 (pySplit content "\n\n")

/-!
### Exception-surface version of the parser

Python list indexing (`lines[0]`, `lines[5]`, `lines[6]`) raises an
uncaught `IndexError` when out of range; `int()` raises `ValueError`, but
that one is caught by the `try` of lines 521-528.  `processLines?` mirrors
`processLines` with every uncaught partial operation made explicit as an
`Option`; `none` models an exception escaping `parse_quiz_file`.  The
totality theorem for the claim about `parse` proves this never happens.
-/

def processLines? (i : Nat) (ls : List String) : Option BlockResult :=
  let n := ls.length
  if n < 6 ∨ 7 < n then some (.err (invalidCountMsg i n))
  else
    match ls.get? 0, ls.get? 1, ls.get? 2, ls.get? 3, ls.get? 4, ls.get? 5 with
    | some l0, some l1, some l2, some l3, some l4, some l5 =>
      if 6 < n then
        (ls.get? 6).map (fun l6 => processSix i l0 l1 l2 l3 l4 l5 (some l6))
      else some (processSix i l0 l1 l2 l3 l4 l5 none)
    | _, _, _, _, _, _ => none

/-- `processBlock` with the explicit exception surface. -/
def processBlock? (i : Nat) (b : String) : Option BlockResult :=
  if (pyStripL b.toList).isEmpty then some .skip
  else processLines? i (pySplit b "\n")

/-- The parse loop with the explicit exception surface. -/
def parseGo? (i : Nat) : List String → Option (List Question × List String)
  | [] => some ([], [])
  | b :: rest =>
    match processBlock? i b, parseGo? (i + 1) rest with
    | some r, some tail =>
      match r with
      | .skip => some tail
      | .ok q => some (q :: tail.1, tail.2)
      | .err e => some (tail.1, e :: tail.2)
    | _, _ => none

/-- `parse_quiz_file` with the explicit exception surface. -/
def parse_quiz_file? (content : String) : Option (List Question × List String) :=
  parseGo? 1 (pySplit content "\n\n")

/-! ## The access-tier resolver (bot.py lines 205-228, 1292-1344) -/

/-- Cache entry: the result/expiry pair each resolver writes, with
expiry = time.time() + CACHE_EXPIRY. -/
structure CacheEntry where
  result : Bool
  expiry : Int
deriving DecidableEq, Repr

/-- bot.py line 58: `CACHE_EXPIRY = 60` seconds. -/
def CACHE_EXPIRY : Int := 60

/-- Association-list lookup, modelling dict `.get` / Mongo `find_one`. -/
def alookup {α : Type} (l : List (Nat × α)) (k : Nat) : Option α :=
  match l with
  | [] => none
  | (k2, v) :: rest => if k2 = k then some v else alookup rest k

/-- Association-list upsert, modelling dict assignment / `update_one` upsert. -/
def aupsert {α : Type} (l : List (Nat × α)) (k : Nat) (v : α) : List (Nat × α) :=
  match l with
  | [] => [(k, v)]
  | (k2, v2) :: rest => if k2 = k then (k, v) :: rest else (k2, v2) :: aupsert rest k v

/-- Association-list delete, modelling `delete_one` on a uniquely-keyed row. -/
def aremove {α : Type} (l : List (Nat × α)) (k : Nat) : List (Nat × α) :=
  l.filter (fun p => ¬ p.1 = k)

/-- One user row of the `users` collection (fields used by the daily gate). -/
structure UserRec where
  userId : Nat
  lastQuizDate : Option Int
  quizCount : Nat
deriving DecidableEq, Repr

/--
The Mongo database: `sudo_users` and `tokens` are sets of user ids,
`premium_users` maps a user id to its `expiry_date`, `users` holds the
daily-quiz accounting fields.
-/
structure Store where
  sudoUsers : List Nat
  premiumUsers : List (Nat × Int)
  tokens : List Nat
  users : List UserRec
deriving DecidableEq, Repr

/--
Process state: the possibly-absent database handle `DB`, the three
module-level caches, the `OWNER_ID` environment value (as a numeric id,
`none` when unset or non-numeric), and counters observing every
`find_one` issued against the backing store by each resolver.
-/
structure BotState where
  db : Option Store
  sudoCache : List (Nat × CacheEntry)
  premiumCache : List (Nat × CacheEntry)
  tokenCache : List (Nat × CacheEntry)
  owner : Option Nat
  sudoReads : Nat
  premiumReads : Nat
  tokenReads : Nat
deriving DecidableEq, Repr

/-- Cache-miss path of `is_sudo` (bot.py lines 211-228). -/
def is_sudo_miss (uid : Nat) (now : Int) (st : BotState) : Bool × BotState :=
  let rs : Bool × BotState :=
    if st.owner = some uid then (true, st)
    else
      match st.db with
      | none => (false, st)
      | some s =>
        (decide (uid ∈ s.sudoUsers), { st with sudoReads := st.sudoReads + 1 })
  (rs.1, { rs.2 with
            sudoCache := aupsert rs.2.sudoCache uid ⟨rs.1, now + CACHE_EXPIRY⟩ })

/--
bot.py `is_sudo` (lines 205-228): consult the cache first; within TTL
return the cached boolean, otherwise check `OWNER_ID`, then the
`sudo_users` collection, and refresh the cache entry.
-/
def is_sudo (uid : Nat) (now : Int) (st : BotState) : Bool × BotState :=
  match alookup st.sudoCache uid with
  | some c => if now < c.expiry then (c.result, st) else is_sudo_miss uid now st
  | none => is_sudo_miss uid now st

/-- Cache-miss path of `is_premium` (bot.py lines 1324-1344). -/
def is_premium_miss (uid : Nat) (now : Int) (st : BotState) : Bool × BotState :=
  let rs : Bool × BotState :=
    match st.db with
    | none => (false, st)
    | some s =>
      let st1 := { st with premiumReads := st.premiumReads + 1 }
      match alookup s.premiumUsers uid with
      | none => (false, st1)
      | some expiry =>
        if now < expiry then (true, st1)
        else
          (false, { st1 with
                     db := some { s with premiumUsers := aremove s.premiumUsers uid } })
  (rs.1, { rs.2 with
            premiumCache := aupsert rs.2.premiumCache uid ⟨rs.1, now + CACHE_EXPIRY⟩ })

/--
bot.py `is_premium` (lines 1318-1344): consult the cache first; on a miss,
read the `premium_users` record.  A record whose `expiry_date` is not in
the future counts as absent and is deleted from the store (lazy expiry);
the boolean and a fresh TTL window are written back to the cache.
-/
def is_premium (uid : Nat) (now : Int) (st : BotState) : Bool × BotState :=
  match alookup st.premiumCache uid with
  | some c => if now < c.expiry then (c.result, st) else is_premium_miss uid now st
  | none => is_premium_miss uid now st

/-- Cache-miss path of the token lookup in `has_valid_token` (lines 1301-1315). -/
def token_miss (uid : Nat) (now : Int) (st : BotState) : Bool × BotState :=
  let rs : Bool × BotState :=
    match st.db with
    | none => (false, st)
    | some s => (decide (uid ∈ s.tokens), { st with tokenReads := st.tokenReads + 1 })
  (rs.1, { rs.2 with
            tokenCache := aupsert rs.2.tokenCache uid ⟨rs.1, now + CACHE_EXPIRY⟩ })

/--
bot.py `has_valid_token` (lines 1292-1315): short-circuits through
`is_sudo` and `is_premium`, then consults the token cache and the
`tokens` collection (presence alone implies validity).
-/
def has_valid_token (uid : Nat) (now : Int) (st : BotState) : Bool × BotState :=
  let s1 := is_sudo uid now st
  if s1.1 then (true, s1.2)
  else
    let p1 := is_premium uid now s1.2
    if p1.1 then (true, p1.2)
    else
      match alookup p1.2.tokenCache uid with
      | some c =>
        if now < c.expiry then (c.result, p1.2) else token_miss uid now p1.2
      | none => token_miss uid now p1.2

/--
bot.py `check_access` (lines 295-304): access is granted when
`is_sudo or is_premium or has_valid_token`; Python `or` short-circuits,
so later checks run only when the earlier ones returned false.
-/
def check_access (uid : Nat) (now : Int) (st : BotState) : Bool × BotState :=
  let s1 := is_sudo uid now st
  if s1.1 then (true, s1.2)
  else
    let p1 := is_premium uid now s1.2
    if p1.1 then (true, p1.2)
    else has_valid_token uid now p1.2

/-! ## Premium-grant duration parsing (bot.py `add_premium`, lines 1034-1078) -/

/--
bot.py lines 1036-1042: `duration_map`, one unit of each supported
duration, in seconds (`month` is 30 days, `year` is 365 days).
-/
def duration_map : List (String × Nat) :=
  [("hr", 3600), ("hour", 3600), ("day", 86400),
   ("month", 30 * 86400), ("year", 365 * 86400)]

/--
The unit part of the regex of line 1045, `(hr|hour|day|month|year)s?$`:
the remainder after the digits must be a supported unit with an optional
trailing `s`.
-/
def matchDurationUnit (rest : String) : Option Nat :=
  (duration_map.find? (fun p => rest = p.1 ∨ rest = p.1 ++ "s")).map (fun p => p.2)

/--
bot.py lines 1035-1052: lowercase the argument, match it against
`^(\d+)(hr|hour|day|month|year)s?$`, and on success return
`duration_map[unit] * amount` in seconds.  `none` models the rejection of
line 1047 (which happens before any store mutation).
-/
def parse_duration (arg : String) : Option Nat :=
  let cs := (pyLower arg).toList
  let digits := cs.takeWhile (fun c => decide ('0' ≤ c ∧ c ≤ '9'))
  let rest := cs.dropWhile (fun c => decide ('0' ≤ c ∧ c ≤ '9'))
  if digits.isEmpty then none
  else
    match matchDurationUnit (String.mk rest) with
    | none => none
    | some unitSecs =>
      some (unitSecs * (digits.foldl (fun a c => a * 10 + (c.toNat - '0'.toNat)) 0))

/--
bot.py `add_premium`, duration-relevant slice (lines 1034-1082): parse the
duration argument; on failure return before touching the store.  On
success (and a resolved target user) upsert the premium record with
`expiry_date = now + duration` and invalidate the target user premium
cache entry.  The owner gate, argument plumbing and notification messages
of the surrounding command are orthogonal and not modelled.
-/
def add_premium (target : Option Nat) (durationStr : String) (now : Int)
    (st : BotState) : BotState :=
  match parse_duration durationStr with
  | none => st
  | some secs =>
    match target with
    | none => st
    | some uid =>
      match st.db with
      | none => st
      | some s =>
        { st with
          db := some { s with premiumUsers := aupsert s.premiumUsers uid (now + secs) },
          premiumCache := aremove st.premiumCache uid }

/-! ## The daily-limit gate of `handle_document` (bot.py lines 535-655) -/

/-- bot.py lines 550-557 and 610-615: the quiz count recorded for today. -/
def quiz_count_today (s : Store) (uid : Nat) (today : Int) : Nat :=
  match s.users.find? (fun u => u.userId = uid) with
  | none => 0
  | some u =>
    match u.lastQuizDate with
    | none => 0
    | some d => if d = today then u.quizCount else 0

/-- Error string of line 655: truncation warning. -/
def truncMsg (remaining : Nat) : String :=
  "⚠️ Only first " ++ toString remaining ++ " questions sent due to daily limit"

/-- Observable outcome of the document handler. -/
inductive DocOutcome where
  /-- Lines 560-591 / 618-649: daily limit reached, refuse, send nothing. -/
  | limitRefused
  /-- Lines 593-595: not a `.txt` upload. -/
  | notTxt
  /-- The handler proceeds to dispatch `qs` as quiz polls and report `errs`. -/
  | sent (qs : List Question) (errs : List String)
deriving DecidableEq, Repr

/--
bot.py `handle_document`, gating slice (lines 535-655): resolve
`is_premium`; non-premium users are refused once the recorded count for
today has reached `limit` (`DAILY_QUIZ_LIMIT`); after parsing, a
non-premium upload is re-checked and truncated to the remaining quota,
with the warning of line 655 appended to the error list.  The poll
dispatch loop and the post-send count update (lines 667-719) are the
outward side of the send-primitive and are summarised by the `sent`
outcome carrying exactly the questions the handler goes on to dispatch.
-/
def handle_document (limit : Nat) (uid : Nat) (now : Int) (today : Int)
    (fileIsTxt : Bool) (content : String) (st : BotState) :
    DocOutcome × BotState :=
  let pr := is_premium uid now st
  let isPrem := pr.1
  let st1 := pr.2
  let gate1 : Bool :=
    if isPrem then false
    else
      match st1.db with
      | none => false
      | some s => decide (limit ≤ quiz_count_today s uid today)
  if gate1 then (.limitRefused, st1)
  else if fileIsTxt = false then (.notTxt, st1)
  else
    let parsed := parse_quiz_file content
    let qs := parsed.1
    let errs := parsed.2
    if isPrem = false ∧ qs ≠ [] then
      match st1.db with
      | none => (.sent qs errs, st1)
      | some s =>
        let qc := quiz_count_today s uid today
        let remaining : Int := (limit : Int) - (qc : Int)
        if remaining ≤ 0 then (.limitRefused, st1)
        else if remaining < (qs.length : Int) then
          (.sent (qs.take remaining.toNat) (errs ++ [truncMsg remaining.toNat]), st1)
        else (.sent qs errs, st1)
    else (.sent qs errs, st1)

/-! ## The broadcast delivery loop (bot.py `confirm_broadcast`, lines 839-902) -/

/--
What the send-primitive (`bot.forward_message`) signals for one recipient,
as discriminated by the exception handlers of lines 863-894:
  - `ok`: the forward succeeds;
  - `badRequestGone`: `BadRequest` whose text says chat not found or user
    deactivated — the permanent blocked/deleted-recipient failure;
  - `badRequestOtherCopy c`: any other `BadRequest`; the engine then tries
    to re-send the stored text (`c = some true`: text present and the copy
    succeeds; `c = some false`: text present but the copy raises;
    `c = none`: media-only message, no text to copy);
  - `exn retryAfter strHasRetryAfter`: any other exception, in particular
    the rate-limit signal `RetryAfter` carrying a mandated wait
    (`retryAfter`); `strHasRetryAfter` says whether the string form of the
    exception contains the text the handler of line 891 sniffs for.
-/
inductive SendOutcome where
  | ok
  | badRequestGone
  | badRequestOtherCopy (c : Option Bool)
  | exn (retryAfter : Option Nat) (strHasRetryAfter : Bool)
deriving DecidableEq, Repr

/-- Accumulator of the delivery loop. -/
structure BroadcastAcc where
  sent : Nat
  failed : Nat
  /-- Milliseconds spent sleeping (lines 861 and 894). -/
  sleptMs : Nat
  /-- Recipients whose failure is individually recorded (`logger.error`). -/
  failLog : List Nat
  /-- Invocations of the forward send-primitive. -/
  forwardCalls : Nat
deriving DecidableEq, Repr

/-- One iteration of the loop of bot.py lines 843-894. -/
def broadcast_step (acc : BroadcastAcc) (uid : Nat) (o : SendOutcome) :
    BroadcastAcc :=
  let acc := { acc with forwardCalls := acc.forwardCalls + 1 }
  match o with
  | .ok => { acc with sent := acc.sent + 1, sleptMs := acc.sleptMs + 100 }
  | .badRequestGone => { acc with failed := acc.failed + 1 }
  | .badRequestOtherCopy (some true) => { acc with sent := acc.sent + 1 }
  | .badRequestOtherCopy (some false) =>
    { acc with failed := acc.failed + 1, failLog := acc.failLog ++ [uid] }
  | .badRequestOtherCopy none =>
    { acc with failed := acc.failed + 1, failLog := acc.failLog ++ [uid] }
  | .exn _ strHas =>
    { acc with failed := acc.failed + 1, failLog := acc.failLog ++ [uid],
               sleptMs := acc.sleptMs + (if strHas then 5000 else 0) }

/-- Final report of lines 897-902, plus the observables tracked above. -/
structure BroadcastReport where
  totalUsers : Nat
  sent : Nat
  failed : Nat
  sleptMs : Nat
  failLog : List Nat
  forwardCalls : Nat
deriving DecidableEq, Repr

/--
bot.py `confirm_broadcast`, delivery loop (lines 839-902): iterate the
user snapshot in order, performing exactly one forward attempt per
recipient and accounting as in `broadcast_step`; the final progress edit
reports the user total and the success and failure counters.
-/
def confirm_broadcast_deliver (recipients : List (Nat × SendOutcome)) :
    BroadcastReport :=
  let acc := recipients.foldl (fun a p => broadcast_step a p.1 p.2) ⟨0, 0, 0, [], 0⟩
  ⟨recipients.length, acc.sent, acc.failed, acc.sleptMs, acc.failLog, acc.forwardCalls⟩

/-! ## Auxiliary definitions used by the statements below -/

/--
The answer number the source extracts from a (stripped) answer line:
`int(answer_line.split(':', 1)[1].strip())` of line 522.
-/
def answerNum (answerLine : String) : Option Int :=
  match splitOnceCore ':' answerLine.toList with
  | none => none
  | some p => pyInt? (pyStrip (String.mk p.2))

/--
`ExtraEmptyBlocks bs bs2` holds when `bs2` is `bs` with extra empty
segments inserted.  Splitting on the two-newline separator turns each
run of two extra newlines between blocks into one empty segment, so this
relation is the block-list image of inserting extra blank-line pairs
between blocks of a document.
-/
inductive ExtraEmptyBlocks : List String → List String → Prop where
  | nil : ExtraEmptyBlocks [] []
  | cons (b : String) {l1 l2 : List String} :
      ExtraEmptyBlocks l1 l2 → ExtraEmptyBlocks (b :: l1) (b :: l2)
  | extra {l1 l2 : List String} :
      ExtraEmptyBlocks l1 l2 → ExtraEmptyBlocks l1 ("" :: l2)

/-- Contribution of one send outcome to the broadcast success counter. -/
def sentDelta : SendOutcome → Nat
  | .ok => 1
  | .badRequestOtherCopy (some true) => 1
  | _ => 0

/-- Contribution of one send outcome to the broadcast failure counter. -/
def failedDelta : SendOutcome → Nat
  | .ok => 0
  | .badRequestOtherCopy (some true) => 0
  | _ => 1

/-- Milliseconds slept after one send outcome. -/
def sleptDelta : SendOutcome → Nat
  | .ok => 100
  | .exn _ true => 5000
  | _ => 0

/-- Whether the failure of this outcome is individually logged. -/
def logsFail : SendOutcome → Bool
  | .badRequestOtherCopy (some false) => true
  | .badRequestOtherCopy none => true
  | .exn _ _ => true
  | _ => false

/-- An empty store, for witnesses. -/
def emptyStore : Store := ⟨[], [], [], []⟩

/--
State for the counterexample to the first claim: user 7 is in the sudo
set and holds a premium record that expired at time 5; caches are cold,
no owner configured.
-/
def c1State : BotState := ⟨some ⟨[7], [(7, 5)], [], []⟩, [], [], [], none, 0, 0, 0⟩

/--
State for the counterexample to the caching claim: user 5 is the
configured owner, the store is reachable and empty, caches are cold.
-/
def c7State : BotState := ⟨some emptyStore, [], [], [], some 5, 0, 0, 0⟩

/-- Cold-cache state over a store with one sudo user, for witnesses. -/
def c7WitnessState : BotState := ⟨some ⟨[1], [(2, 50)], [9], []⟩, [], [], [], none, 0, 0, 0⟩

/--
Recipients of the fourth claim: ten users, recipient 4 permanently
unreachable (blocked/deleted), everyone else reachable.
-/
def c4Recipients : List (Nat × SendOutcome) :=
  (List.range 10).map
    (fun n => (n + 1, if n + 1 = 4 then SendOutcome.badRequestGone else SendOutcome.ok))

/--
State for the daily-limit witnesses: user 3 is in the sudo set, has no
premium record, and has 1 quiz recorded for day 0.
-/
def c10State : BotState := ⟨some ⟨[3], [], [], [⟨3, some 0, 1⟩]⟩, [], [], [], none, 0, 0, 0⟩

/-! ## Shared lemmas -/

lemma alookup_aupsert_self {α : Type} (l : List (Nat × α)) (k : Nat) (v : α) :
    alookup (aupsert l k v) k = some v := by
  induction l with
  | nil => simp [aupsert, alookup]
  | cons p rest ih =>
    obtain ⟨k2, v2⟩ := p
    by_cases h : k2 = k
    · simp [aupsert, alookup, h]
    · simp [aupsert, alookup, h, ih]

/-- The branch taken by `processSix`, and the emitted question, do not
depend on the block index; only error text does. -/
lemma processSix_congr (i j : Nat) (l0 l1 l2 l3 l4 l5 : String)
    (l6 : Option String) :
    processSix i l0 l1 l2 l3 l4 l5 l6 = processSix j l0 l1 l2 l3 l4 l5 l6
    ∨ ∃ e1 e2, processSix i l0 l1 l2 l3 l4 l5 l6 = .err e1
        ∧ processSix j l0 l1 l2 l3 l4 l5 l6 = .err e2 := by
  unfold processSix
  cases h : pyStartsWith (pyLower (pyStrip l5)) "answer:" with
  | false =>
    refine Or.inr ⟨missingAnswerMsg i, missingAnswerMsg j, ?_, ?_⟩ <;> simp [h]
  | true =>
    cases hs : splitOnceCore ':' (pyStrip l5).data with
    | none =>
      refine Or.inr ⟨malformedMsg i, malformedMsg j, ?_, ?_⟩ <;> simp [h, hs]
    | some p =>
      cases hk : pyInt? (pyStrip (String.mk p.2)) with
      | none =>
        refine Or.inr ⟨malformedMsg i, malformedMsg j, ?_, ?_⟩ <;> simp [h, hs, hk]
      | some k =>
        by_cases hr : k < 1 ∨ 4 < k
        · refine Or.inr ⟨invalidNumberMsg i k, invalidNumberMsg j k, ?_, ?_⟩ <;>
            simp [h, hs, hk, hr]
        · refine Or.inl ?_
          simp [h, hs, hk, hr]

/-- `processLines` congruence in the block index. -/
lemma processLines_congr (i j : Nat) (ls : List String) :
    processLines i ls = processLines j ls
    ∨ ∃ e1 e2, processLines i ls = .err e1 ∧ processLines j ls = .err e2 := by
  match ls with
  | l0 :: l1 :: l2 :: l3 :: l4 :: l5 :: rest =>
    by_cases h : rest.length ≤ 1
    · have := processSix_congr i j l0 l1 l2 l3 l4 l5 rest.head?
      simpa [processLines, h] using this
    · refine Or.inr ⟨invalidCountMsg i (l0 :: l1 :: l2 :: l3 :: l4 :: l5 :: rest).length,
        invalidCountMsg j (l0 :: l1 :: l2 :: l3 :: l4 :: l5 :: rest).length, ?_, ?_⟩ <;>
        simp [processLines, h]
  | [] => exact Or.inr ⟨invalidCountMsg i 0, invalidCountMsg j 0, rfl, rfl⟩
  | [l0] => exact Or.inr ⟨invalidCountMsg i 1, invalidCountMsg j 1, rfl, rfl⟩
  | [l0, l1] => exact Or.inr ⟨invalidCountMsg i 2, invalidCountMsg j 2, rfl, rfl⟩
  | [l0, l1, l2] => exact Or.inr ⟨invalidCountMsg i 3, invalidCountMsg j 3, rfl, rfl⟩
  | [l0, l1, l2, l3] =>
    exact Or.inr ⟨invalidCountMsg i 4, invalidCountMsg j 4, rfl, rfl⟩
  | [l0, l1, l2, l3, l4] =>
    exact Or.inr ⟨invalidCountMsg i 5, invalidCountMsg j 5, rfl, rfl⟩

/-- `processBlock` congruence in the block index. -/
lemma processBlock_congr (i j : Nat) (b : String) :
    processBlock i b = processBlock j b
    ∨ ∃ e1 e2, processBlock i b = .err e1 ∧ processBlock j b = .err e2 := by
  by_cases h : pyStripL b.data = []
  · refine Or.inl ?_
    simp [processBlock, h]
  · rcases processLines_congr i j (pySplit b "\n") with hc | ⟨e1, e2, h1, h2⟩
    · refine Or.inl ?_
      simp [processBlock, h, hc]
    · refine Or.inr ⟨e1, e2, ?_, ?_⟩ <;> simp [processBlock, h, h1, h2]

/-- The empty block is skipped. -/
lemma processBlock_empty (i : Nat) : processBlock i "" = .skip := rfl

/-- The questions returned by the parse loop do not depend on the start
index, and neither does the number of errors. -/
lemma parseGo_index (bs : List String) : ∀ i j : Nat,
    (parseGo i bs).1 = (parseGo j bs).1
    ∧ (parseGo i bs).2.length = (parseGo j bs).2.length := by
  induction bs with
  | nil => intro i j; exact ⟨rfl, rfl⟩
  | cons b rest ih =>
    intro i j
    obtain ⟨ihq, ihe⟩ := ih (i + 1) (j + 1)
    rcases processBlock_congr i j b with h | ⟨e1, e2, h1, h2⟩
    · cases hb : processBlock j b with
      | skip => simp [parseGo, h, hb, ihq, ihe]
      | ok q => simp [parseGo, h, hb, ihq, ihe]
      | err e => simp [parseGo, h, hb, ihq, ihe]
    · simp [parseGo, h1, h2, ihq, ihe]

/-- A block whose line count is outside 6-7 yields the invalid-line-count
error. -/
lemma processLines_badCount (i : Nat) (ls : List String)
    (h : ls.length < 6 ∨ 7 < ls.length) :
    processLines i ls = .err (invalidCountMsg i ls.length) := by
  match ls with
  | [] => rfl
  | [l0] => rfl
  | [l0, l1] => rfl
  | [l0, l1, l2] => rfl
  | [l0, l1, l2, l3] => rfl
  | [l0, l1, l2, l3, l4] => rfl
  | l0 :: l1 :: l2 :: l3 :: l4 :: l5 :: rest =>
    have hlen : ¬ rest.length ≤ 1 := by
      rcases h with h | h
      · simp at h; omega
      · simp at h; omega
    simp [processLines, hlen]

/-- Questions are invariant under inserting extra empty blocks into the
block list (empty blocks are skipped; only error indices shift). -/
lemma parseGo_extraEmpty {bs1 bs2 : List String}
    (h : ExtraEmptyBlocks bs1 bs2) : ∀ i j : Nat,
    (parseGo i bs1).1 = (parseGo j bs2).1 := by
  induction h with
  | nil => intro i j; rfl
  | cons b h ih =>
    intro i j
    rcases processBlock_congr i j b with hc | ⟨e1, e2, h1, h2⟩
    · cases hb : processBlock j b with
      | skip => simp [parseGo, hc, hb, ih (i + 1) (j + 1)]
      | ok q => simp [parseGo, hc, hb, ih (i + 1) (j + 1)]
      | err e => simp [parseGo, hc, hb, ih (i + 1) (j + 1)]
    · simp [parseGo, h1, h2, ih (i + 1) (j + 1)]
  | extra h ih =>
    intro i j
    simp [parseGo, processBlock_empty, ih i (j + 1)]

/-- Inserting a block that always errors leaves the question list
unchanged and adds exactly one error. -/
lemma parseGo_insert_err (b : String)
    (hb : ∀ k : Nat, ∃ e, processBlock k b = .err e) :
    ∀ (pre : List String) (post : List String) (i : Nat),
    (parseGo i (pre ++ b :: post)).1 = (parseGo i (pre ++ post)).1
    ∧ (parseGo i (pre ++ b :: post)).2.length
        = (parseGo i (pre ++ post)).2.length + 1 := by
  intro pre
  induction pre with
  | nil =>
    intro post i
    obtain ⟨e, he⟩ := hb i
    refine ⟨?_, ?_⟩
    · simp [parseGo, he, (parseGo_index post (i + 1) i).1]
    · simp [parseGo, he, (parseGo_index post (i + 1) i).2]
  | cons p pre ih =>
    intro post i
    obtain ⟨h1, h2⟩ := ih post (i + 1)
    cases hp : processBlock i p with
    | skip => simp [parseGo, hp, h1, h2]
    | ok q => simp [parseGo, hp, h1, h2]
    | err e => simp [parseGo, hp, h1, h2]

/-- The exception-surface `processLines?` never fails and agrees with the
total `processLines`. -/
lemma processLines_exc (i : Nat) (ls : List String) :
    processLines? i ls = some (processLines i ls) := by
  match ls with
  | [] => rfl
  | [a] => rfl
  | [a, b] => rfl
  | [a, b, c] => rfl
  | [a, b, c, d] => rfl
  | [a, b, c, d, e] => rfl
  | [a, b, c, d, e, f] => rfl
  | [a, b, c, d, e, f, g] => rfl
  | a :: b :: c :: d :: e :: f :: g :: h :: t =>
    have hcond : (a :: b :: c :: d :: e :: f :: g :: h :: t).length < 6
        ∨ 7 < (a :: b :: c :: d :: e :: f :: g :: h :: t).length := by
      refine Or.inr ?_
      simp
    have h6 : ¬ (g :: h :: t).length ≤ 1 := by simp
    simp [processLines?, processLines, hcond, h6]

/-- The exception-surface `processBlock?` never fails. -/
lemma processBlock_exc (i : Nat) (b : String) :
    processBlock? i b = some (processBlock i b) := by
  by_cases h : pyStripL b.data = []
  · simp [processBlock?, processBlock, h]
  · simp [processBlock?, processBlock, h, processLines_exc]

/-- The exception-surface parse loop never fails. -/
lemma parseGo_exc (bs : List String) : ∀ i : Nat,
    parseGo? i bs = some (parseGo i bs) := by
  induction bs with
  | nil => intro i; rfl
  | cons b rest ih =>
    intro i
    cases hb : processBlock i b with
    | skip => simp [parseGo?, parseGo, processBlock_exc, hb, ih (i + 1)]
    | ok q => simp [parseGo?, parseGo, processBlock_exc, hb, ih (i + 1)]
    | err e => simp [parseGo?, parseGo, processBlock_exc, hb, ih (i + 1)]

/-! ## Claim theorems: the parser -/

/--
Claim C9 (confirmed): `parse` is total, pure and deterministic.  The
embedding `parse_quiz_file` is a Lean function, hence pure and
deterministic (equal inputs give equal outputs by definition); totality
is the content proved here: `parse_quiz_file?`, which makes every
uncaught partial operation of the Python body explicit as an `Option`
(the indexings `lines[0]`, `lines[5]`, `lines[6]`; `int()` and the
out-of-range split access are caught by the source and already modelled
as error branches), returns `some` of the total result on every input
string, so no exception ever escapes `parse_quiz_file`.
-/
theorem C9_parse_total (content : String) :
    parse_quiz_file? content = some (parse_quiz_file content) :=
  parseGo_exc (pySplit content "\n\n") 1

/--
Claim C3 counterexample: parse is NOT invariant under inserting an
additional blank line between blocks.  With the single separator
(`...Answer: 1\n\n R-block...`) both blocks parse and two questions are
returned; with one extra newline (`\n\n\n`) the second segment of
`split("\n\n")` starts with an empty line, so it has seven lines whose
sixth is `"Z"`, and the second block is rejected with a missing-answer
error: the question lists differ.
-/
theorem C3_counterexample :
    (parse_quiz_file "Q\nA\nB\nC\nD\nAnswer: 1\n\nR\nW\nX\nY\nZ\nAnswer: 2").1
      ≠ (parse_quiz_file "Q\nA\nB\nC\nD\nAnswer: 1\n\n\nR\nW\nX\nY\nZ\nAnswer: 2").1 := by
  decide

/--
Claim C3 (corrected): the question list is invariant under inserting
extra blank-line pairs, i.e. extra empty segments in the blank-line
split (an even number of extra newlines between blocks).  Inserting a
single extra newline instead re-shapes the following block (see the
counterexample), and the error list is not invariant in either case
because error messages embed the raw 1-based segment index.
-/
theorem C3_amended (c1 c2 : String)
    (h : ExtraEmptyBlocks (pySplit c1 "\n\n") (pySplit c2 "\n\n")) :
    (parse_quiz_file c1).1 = (parse_quiz_file c2).1 :=
  parseGo_extraEmpty h 1 1

/-- Witness for C3_amended at a concrete document pair. -/
theorem C3_witness :
    (parse_quiz_file "x\n\ny").1 = (parse_quiz_file "x\n\n\n\ny").1 := by
  refine C3_amended _ _ ?_
  have e1 : pySplit "x\n\ny" "\n\n" = ["x", "y"] := by decide
  have e2 : pySplit "x\n\n\n\ny" "\n\n" = ["x", "", "y"] := by decide
  rw [e1, e2]
  exact .cons "x" (.extra (.cons "y" .nil))

/--
Claim C5 counterexample: the option lines are NOT kept verbatim.  In a
well-formed six-line block whose second line is `" A "` (non-blank, a
valid option line), the emitted question carries the stripped option
`"A"`, not the verbatim line `" A "`.
-/
theorem C5_counterexample :
    (parse_quiz_file "Q\n A \nB\nC\nD\nAnswer: 1").1
      = [⟨"Q", ["A", "B", "C", "D"], 0, none⟩]
    ∧ pySplit "Q\n A \nB\nC\nD\nAnswer: 1" "\n"
      = ["Q", " A ", "B", "C", "D", "Answer: 1"]
    ∧ (" A " : String) ≠ "A" := by decide

/--
Claim C5 (corrected): for every block of exactly 6 lines whose 6th line,
after stripping, begins case-insensitively with `answer:` and whose
remainder after the first colon parses as an integer k with 1 ≤ k ≤ 4,
the parser emits exactly one Question for the block — with
`correctIndex = k - 1`, no explanation, and no error — whose prompt and
four options are the corresponding lines with surrounding whitespace
stripped (not verbatim; no option-prefix scheme is required or removed).
-/
theorem C5_amended (i : Nat) (l0 l1 l2 l3 l4 l5 : String) (k : Int)
    (hpre : pyStartsWith (pyLower (pyStrip l5)) "answer:" = true)
    (hk : answerNum (pyStrip l5) = some k)
    (hlo : 1 ≤ k) (hhi : k ≤ 4) :
    processLines i [l0, l1, l2, l3, l4, l5]
      = .ok ⟨pyStrip l0, [pyStrip l1, pyStrip l2, pyStrip l3, pyStrip l4],
             (k - 1).toNat, none⟩ := by
  have hr : ¬ (k < 1 ∨ 4 < k) := by omega
  unfold answerNum at hk
  simp only [String.toList] at hk
  cases hs : splitOnceCore ':' (pyStrip l5).data with
  | none => rw [hs] at hk; exact absurd hk (by simp)
  | some p =>
    rw [hs] at hk
    have hk2 : pyInt? (pyStrip (String.mk p.2)) = some k := hk
    simp [processLines, processSix, hpre, hs, hk2, hr]

/-- Witness for C5_amended at a concrete six-line block. -/
theorem C5_witness :
    processLines 1 ["What", "A) 1", "B) 2", "C) 3", "D) 4", "Answer: 3"]
      = .ok ⟨"What", ["A) 1", "B) 2", "C) 3", "D) 4"], 2, none⟩ := by
  rw [C5_amended 1 "What" "A) 1" "B) 2" "C) 3" "D) 4" "Answer: 3" 3
    (by decide) (by decide) (by decide) (by decide)]
  decide

/--
Claim C6 counterexample: removing a bad block does NOT leave the error
entries of the following blocks identical.  In `"x\n\nx"` both one-line
blocks fail the line-count guard; the error contributed by the second
block says `Question 2`.  In the document without the first (bad) block
the same trailing block contributes `Question 1`: the error texts differ
because they embed the 1-based block position.
-/
theorem C6_counterexample :
    (parse_quiz_file "x\n\nx").2.get? 1 ≠ (parse_quiz_file "x").2.get? 0 := by
  decide

/--
Claim C6 (corrected): a non-blank block whose line count is outside
{6, 7} yields no question and exactly one invalid-line-count error, and
the questions contributed by all other blocks are exactly those of the
document without the bad block, with the total error count higher by
exactly one.  The error texts of later blocks are not literally
identical, since they embed the 1-based block position, which shifts.
-/
theorem C6_amended (i : Nat) (pre post : List String) (b : String)
    (hb : ¬ pyStripL b.data = [])
    (hn : (pySplit b "\n").length < 6 ∨ 7 < (pySplit b "\n").length) :
    processBlock i b = .err (invalidCountMsg i (pySplit b "\n").length)
    ∧ (parseGo i (pre ++ b :: post)).1 = (parseGo i (pre ++ post)).1
    ∧ (parseGo i (pre ++ b :: post)).2.length
        = (parseGo i (pre ++ post)).2.length + 1 := by
  have hpb : ∀ k : Nat,
      processBlock k b = .err (invalidCountMsg k (pySplit b "\n").length) := by
    intro k
    simp [processBlock, hb, processLines_badCount k _ hn]
  have h2 := parseGo_insert_err b (fun k => ⟨_, hpb k⟩) pre post i
  exact ⟨hpb i, h2.1, h2.2⟩

/-- Witness for C6_amended: a one-line block inserted before a good
block. -/
theorem C6_witness :
    processBlock 1 "x" = .err (invalidCountMsg 1 (pySplit "x" "\n").length)
    ∧ (parseGo 1 ([] ++ "x" :: ["Q\nA\nB\nC\nD\nAnswer: 1"])).1
        = (parseGo 1 ([] ++ ["Q\nA\nB\nC\nD\nAnswer: 1"])).1
    ∧ (parseGo 1 ([] ++ "x" :: ["Q\nA\nB\nC\nD\nAnswer: 1"])).2.length
        = (parseGo 1 ([] ++ ["Q\nA\nB\nC\nD\nAnswer: 1"])).2.length + 1 :=
  C6_amended 1 [] ["Q\nA\nB\nC\nD\nAnswer: 1"] "x" (by decide) (by decide)

/-! ## Claim theorems: the broadcast delivery loop -/

/-- One delivery step, written additively in the outcome deltas. -/
lemma broadcast_step_eq (acc : BroadcastAcc) (uid : Nat) (o : SendOutcome) :
    broadcast_step acc uid o =
      ⟨acc.sent + sentDelta o, acc.failed + failedDelta o,
       acc.sleptMs + sleptDelta o,
       acc.failLog ++ (if logsFail o then [uid] else []),
       acc.forwardCalls + 1⟩ := by
  cases o with
  | ok => simp [broadcast_step, sentDelta, failedDelta, sleptDelta, logsFail]
  | badRequestGone =>
    simp [broadcast_step, sentDelta, failedDelta, sleptDelta, logsFail]
  | badRequestOtherCopy c =>
    cases c with
    | none => simp [broadcast_step, sentDelta, failedDelta, sleptDelta, logsFail]
    | some b =>
      cases b <;> simp [broadcast_step, sentDelta, failedDelta, sleptDelta, logsFail]
  | exn r b =>
    cases b <;> simp [broadcast_step, sentDelta, failedDelta, sleptDelta, logsFail]

/-- The delivery fold, field by field. -/
lemma foldl_broadcast (l : List (Nat × SendOutcome)) : ∀ a : BroadcastAcc,
    l.foldl (fun a p => broadcast_step a p.1 p.2) a =
      ⟨a.sent + (l.map (fun p => sentDelta p.2)).sum,
       a.failed + (l.map (fun p => failedDelta p.2)).sum,
       a.sleptMs + (l.map (fun p => sleptDelta p.2)).sum,
       a.failLog ++ l.foldr (fun p r => (if logsFail p.2 then [p.1] else []) ++ r) [],
       a.forwardCalls + l.length⟩ := by
  induction l with
  | nil => intro a; simp
  | cons p rest ih =>
    intro a
    rw [List.foldl_cons, broadcast_step_eq, ih]
    simp [Nat.add_assoc, List.append_assoc]
    omega

/-- The delivery report, field by field. -/
lemma confirm_broadcast_deliver_eq (l : List (Nat × SendOutcome)) :
    confirm_broadcast_deliver l =
      ⟨l.length, (l.map (fun p => sentDelta p.2)).sum,
       (l.map (fun p => failedDelta p.2)).sum,
       (l.map (fun p => sleptDelta p.2)).sum,
       l.foldr (fun p r => (if logsFail p.2 then [p.1] else []) ++ r) [],
       l.length⟩ := by
  simp [confirm_broadcast_deliver, foldl_broadcast]

/--
Claim C2 counterexample: a rate-limit signal carrying a mandated wait of
2 units on the only recipient yields zero successes, one failure, and a
single invocation of the send-primitive — the engine neither retries the
recipient nor converts the retry into a success, contradicting the
claimed wait-and-retry-in-place behaviour.
-/
theorem C2_counterexample :
    (confirm_broadcast_deliver [(1, SendOutcome.exn (some 2) true)]).sent = 0
    ∧ (confirm_broadcast_deliver [(1, SendOutcome.exn (some 2) true)]).failed = 1
    ∧ (confirm_broadcast_deliver [(1, SendOutcome.exn (some 2) true)]).forwardCalls = 1 := by
  decide

/--
Claim C2 (corrected): when the send-primitive signals a rate-limit
condition for some recipient, the broadcast engine counts that recipient
as failed (not success), advances to the next recipient without ever
retrying (exactly one send-primitive call per recipient), and sleeps a
fixed 5 seconds — only when the string form of the exception mentions the
sniffed class name, and ignoring the mandated wait duration `rt`
entirely; the accounting of all other recipients is unaffected.
-/
theorem C2_amended (us1 us2 : List (Nat × SendOutcome)) (uid rt : Nat) (flag : Bool) :
    (confirm_broadcast_deliver (us1 ++ (uid, SendOutcome.exn (some rt) flag) :: us2)).sent
      = (confirm_broadcast_deliver (us1 ++ us2)).sent
    ∧ (confirm_broadcast_deliver (us1 ++ (uid, SendOutcome.exn (some rt) flag) :: us2)).failed
      = (confirm_broadcast_deliver (us1 ++ us2)).failed + 1
    ∧ (confirm_broadcast_deliver (us1 ++ (uid, SendOutcome.exn (some rt) flag) :: us2)).sleptMs
      = (confirm_broadcast_deliver (us1 ++ us2)).sleptMs + (if flag then 5000 else 0)
    ∧ (∀ l : List (Nat × SendOutcome),
        (confirm_broadcast_deliver l).forwardCalls = l.length) := by
  refine ⟨?_, ?_, ?_, fun l => ?_⟩
  · simp [confirm_broadcast_deliver_eq, sentDelta]
  · simp [confirm_broadcast_deliver_eq, failedDelta]
    omega
  · cases flag <;> (simp [confirm_broadcast_deliver_eq, sleptDelta]; try omega)
  · simp [confirm_broadcast_deliver_eq]

/--
Claim C4 (corrected): for ten recipients where recipient 4 signals the
permanent blocked/deleted failure and all others succeed, the loop runs
to completion (ten send calls), and the final report shows 10 users, 9
sent, 1 failed.  There is no bounded sample-failures list in the code:
the only per-recipient failure record (the error log) stays empty, since
the blocked/deleted branch merely increments the counter.
-/
theorem C4_amended :
    confirm_broadcast_deliver c4Recipients = ⟨10, 9, 1, 900, [], 10⟩ := by
  decide

/--
Claim C4 counterexample: recipient 4 appears in no failure list of the
report — the claimed `sampleFailures` entry does not exist (the code
keeps no such list; the failure is only counted).
-/
theorem C4_counterexample :
    (confirm_broadcast_deliver c4Recipients).failed = 1
    ∧ ¬ 4 ∈ (confirm_broadcast_deliver c4Recipients).failLog := by
  decide

/-! ## Claim theorems: the access-tier resolver -/

/-- A cache hit within TTL returns the stored boolean and leaves the
state untouched. -/
lemma is_sudo_hit (uid : Nat) (now : Int) (st : BotState) (c : CacheEntry)
    (h : alookup st.sudoCache uid = some c) (hlt : now < c.expiry) :
    is_sudo uid now st = (c.result, st) := by
  simp [is_sudo, h, hlt]

/-- What `is_sudo_miss` does to the state: writes the fresh cache entry
for `uid` and touches nothing else except the read counter. -/
lemma is_sudo_miss_spec (uid : Nat) (now : Int) (st : BotState) :
    alookup (is_sudo_miss uid now st).2.sudoCache uid
        = some ⟨(is_sudo_miss uid now st).1, now + CACHE_EXPIRY⟩
    ∧ (is_sudo_miss uid now st).2.premiumCache = st.premiumCache
    ∧ (is_sudo_miss uid now st).2.tokenCache = st.tokenCache
    ∧ (is_sudo_miss uid now st).2.db = st.db
    ∧ (is_sudo_miss uid now st).2.owner = st.owner
    ∧ (is_sudo_miss uid now st).2.premiumReads = st.premiumReads
    ∧ (is_sudo_miss uid now st).2.tokenReads = st.tokenReads := by
  unfold is_sudo_miss
  by_cases h : st.owner = some uid
  · simp [h, alookup_aupsert_self]
  · cases hdb : st.db <;> simp [h, hdb, alookup_aupsert_self]

/-- What `is_premium_miss` does to the state: writes the fresh cache
entry; the store keeps its user, sudo and token collections (only a stale
premium record may be deleted). -/
lemma is_premium_miss_spec (uid : Nat) (now : Int) (st : BotState) :
    alookup (is_premium_miss uid now st).2.premiumCache uid
        = some ⟨(is_premium_miss uid now st).1, now + CACHE_EXPIRY⟩
    ∧ (is_premium_miss uid now st).2.sudoCache = st.sudoCache
    ∧ (is_premium_miss uid now st).2.tokenCache = st.tokenCache
    ∧ (is_premium_miss uid now st).2.owner = st.owner
    ∧ (is_premium_miss uid now st).2.sudoReads = st.sudoReads
    ∧ (is_premium_miss uid now st).2.tokenReads = st.tokenReads
    ∧ (∀ s, st.db = some s → ∃ s2, (is_premium_miss uid now st).2.db = some s2
        ∧ s2.sudoUsers = s.sudoUsers ∧ s2.tokens = s.tokens
        ∧ s2.users = s.users) := by
  unfold is_premium_miss
  cases hdb : st.db with
  | none => simp [hdb, alookup_aupsert_self]
  | some s =>
    cases hrec : alookup s.premiumUsers uid with
    | none =>
      simp [hdb, hrec, alookup_aupsert_self]
    | some expiry =>
      by_cases hexp : now < expiry
      · simp [hdb, hrec, hexp, alookup_aupsert_self]
      · simp [hdb, hrec, hexp, alookup_aupsert_self]

/-- A premium cache miss with a reachable store issues exactly one
`find_one` against the premium collection. -/
lemma is_premium_miss_reads (uid : Nat) (now : Int) (st : BotState) (s : Store)
    (hdb : st.db = some s) :
    (is_premium_miss uid now st).2.premiumReads = st.premiumReads + 1 := by
  unfold is_premium_miss
  cases hrec : alookup s.premiumUsers uid with
  | none => simp [hdb, hrec]
  | some expiry => by_cases hexp : now < expiry <;> simp [hdb, hrec, hexp]

/-- What `token_miss` does to the state. -/
lemma token_miss_spec (uid : Nat) (now : Int) (st : BotState) :
    alookup (token_miss uid now st).2.tokenCache uid
        = some ⟨(token_miss uid now st).1, now + CACHE_EXPIRY⟩
    ∧ (token_miss uid now st).2.sudoCache = st.sudoCache
    ∧ (token_miss uid now st).2.premiumCache = st.premiumCache
    ∧ (token_miss uid now st).2.db = st.db := by
  unfold token_miss
  cases hdb : st.db <;> simp [hdb, alookup_aupsert_self]

/-- Within TTL, a second `is_sudo` call returns the identical result and
performs no state change at all (no store read, no cache write). -/
lemma is_sudo_ttl (uid : Nat) (t1 t2 : Int) (st : BotState)
    (h : alookup st.sudoCache uid = none) (hlt : t2 < t1 + CACHE_EXPIRY) :
    is_sudo uid t2 (is_sudo uid t1 st).2 = is_sudo uid t1 st := by
  have hmiss : is_sudo uid t1 st = is_sudo_miss uid t1 st := by simp [is_sudo, h]
  rw [hmiss]
  rw [is_sudo_hit uid t2 _ _ (is_sudo_miss_spec uid t1 st).1 hlt]

/-- Within TTL, a second `is_premium` call returns the identical result
and performs no state change at all. -/
lemma is_premium_ttl (uid : Nat) (t1 t2 : Int) (st : BotState)
    (h : alookup st.premiumCache uid = none) (hlt : t2 < t1 + CACHE_EXPIRY) :
    is_premium uid t2 (is_premium uid t1 st).2 = is_premium uid t1 st := by
  have hmiss : is_premium uid t1 st = is_premium_miss uid t1 st := by
    simp [is_premium, h]
  rw [hmiss]
  have hc := (is_premium_miss_spec uid t1 st).1
  simp [is_premium, hc, hlt]

/-- Within TTL, a second `has_valid_token` call returns the identical
result and performs no state change at all. -/
lemma hvt_ttl (uid : Nat) (t1 t2 : Int) (st : BotState)
    (hs : alookup st.sudoCache uid = none)
    (hp : alookup st.premiumCache uid = none)
    (ht : alookup st.tokenCache uid = none)
    (hlt : t2 < t1 + CACHE_EXPIRY) :
    has_valid_token uid t2 (has_valid_token uid t1 st).2
      = has_valid_token uid t1 st := by
  obtain ⟨sc1, pc1, tc1, db1, ow1, pr1, tr1⟩ := is_sudo_miss_spec uid t1 st
  have hs1 : is_sudo uid t1 st = is_sudo_miss uid t1 st := by simp [is_sudo, hs]
  have hhit1 : is_sudo uid t2 (is_sudo_miss uid t1 st).2
      = ((is_sudo_miss uid t1 st).1, (is_sudo_miss uid t1 st).2) :=
    is_sudo_hit uid t2 _ _ sc1 hlt
  cases hr1 : (is_sudo_miss uid t1 st).1 with
  | true =>
    have h1 : has_valid_token uid t1 st = (true, (is_sudo_miss uid t1 st).2) := by
      simp [has_valid_token, hs1, hr1]
    rw [h1]
    simp [has_valid_token, hhit1, hr1]
  | false =>
    have hp1 : alookup (is_sudo_miss uid t1 st).2.premiumCache uid = none := by
      rw [pc1]; exact hp
    have hprem1 : is_premium uid t1 (is_sudo_miss uid t1 st).2
        = is_premium_miss uid t1 (is_sudo_miss uid t1 st).2 := by
      simp [is_premium, hp1]
    obtain ⟨pc2, sc2, tc2, ow2, sr2, tr2, dbf2⟩ :=
      is_premium_miss_spec uid t1 (is_sudo_miss uid t1 st).2
    have hhit2 : is_sudo uid t2 (is_premium_miss uid t1 (is_sudo_miss uid t1 st).2).2
        = ((is_sudo_miss uid t1 st).1,
           (is_premium_miss uid t1 (is_sudo_miss uid t1 st).2).2) := by
      refine is_sudo_hit uid t2 _ ⟨(is_sudo_miss uid t1 st).1, t1 + CACHE_EXPIRY⟩ ?_ hlt
      rw [sc2, sc1, hr1]
    cases hr2 : (is_premium_miss uid t1 (is_sudo_miss uid t1 st).2).1 with
    | true =>
      have h1 : has_valid_token uid t1 st
          = (true, (is_premium_miss uid t1 (is_sudo_miss uid t1 st).2).2) := by
        simp [has_valid_token, hs1, hr1, hprem1, hr2]
      rw [h1]
      have hphit : is_premium uid t2 (is_premium_miss uid t1 (is_sudo_miss uid t1 st).2).2
          = ((is_premium_miss uid t1 (is_sudo_miss uid t1 st).2).1,
             (is_premium_miss uid t1 (is_sudo_miss uid t1 st).2).2) := by
        simp [is_premium, pc2, hlt]
      simp [has_valid_token, hhit2, hr1, hphit, hr2]
    | false =>
      have ht2c : alookup (is_premium_miss uid t1 (is_sudo_miss uid t1 st).2).2.tokenCache uid
          = none := by
        rw [tc2, tc1]; exact ht
      have h1 : has_valid_token uid t1 st
          = token_miss uid t1 (is_premium_miss uid t1 (is_sudo_miss uid t1 st).2).2 := by
        simp [has_valid_token, hs1, hr1, hprem1, hr2, ht2c]
      obtain ⟨tkc, tks, tkp, tkdb⟩ :=
        token_miss_spec uid t1 (is_premium_miss uid t1 (is_sudo_miss uid t1 st).2).2
      have hhit3 : is_sudo uid t2
          (token_miss uid t1 (is_premium_miss uid t1 (is_sudo_miss uid t1 st).2).2).2
          = ((is_sudo_miss uid t1 st).1,
             (token_miss uid t1 (is_premium_miss uid t1 (is_sudo_miss uid t1 st).2).2).2) := by
        refine is_sudo_hit uid t2 _ ⟨(is_sudo_miss uid t1 st).1, t1 + CACHE_EXPIRY⟩ ?_ hlt
        rw [tks, sc2, sc1, hr1]
      have hphit : is_premium uid t2
          (token_miss uid t1 (is_premium_miss uid t1 (is_sudo_miss uid t1 st).2).2).2
          = ((is_premium_miss uid t1 (is_sudo_miss uid t1 st).2).1,
             (token_miss uid t1 (is_premium_miss uid t1 (is_sudo_miss uid t1 st).2).2).2) := by
        have : alookup (token_miss uid t1
            (is_premium_miss uid t1 (is_sudo_miss uid t1 st).2).2).2.premiumCache uid
            = some ⟨(is_premium_miss uid t1 (is_sudo_miss uid t1 st).2).1,
                    t1 + CACHE_EXPIRY⟩ := by
          rw [tkp, pc2]
        simp [is_premium, this, hlt]
      rw [h1]
      have htkhit : alookup (token_miss uid t1
          (is_premium_miss uid t1 (is_sudo_miss uid t1 st).2).2).2.tokenCache uid
          = some ⟨(token_miss uid t1
              (is_premium_miss uid t1 (is_sudo_miss uid t1 st).2).2).1,
              t1 + CACHE_EXPIRY⟩ := tkc
      simp [has_valid_token, hhit3, hr1, hphit, hr2, htkhit, hlt]

/-- After the TTL has elapsed, a fresh `is_sudo` call on a non-owner user
with a reachable store re-reads the store and rewrites the cache entry
with a TTL window starting at the new check time. -/
lemma is_sudo_fresh (uid : Nat) (t1 t3 : Int) (st : BotState) (s : Store)
    (hs : alookup st.sudoCache uid = none)
    (how : ¬ st.owner = some uid)
    (hdb : st.db = some s)
    (hge : t1 + CACHE_EXPIRY ≤ t3) :
    (is_sudo uid t3 (is_sudo uid t1 st).2).2.sudoReads = st.sudoReads + 2
    ∧ alookup (is_sudo uid t3 (is_sudo uid t1 st).2).2.sudoCache uid
        = some ⟨(is_sudo uid t3 (is_sudo uid t1 st).2).1, t3 + CACHE_EXPIRY⟩
    ∧ (is_sudo uid t3 (is_sudo uid t1 st).2).1 = decide (uid ∈ s.sudoUsers) := by
  have hmiss1 : is_sudo uid t1 st = is_sudo_miss uid t1 st := by simp [is_sudo, hs]
  have h1 : is_sudo_miss uid t1 st
      = (decide (uid ∈ s.sudoUsers),
         { st with sudoReads := st.sudoReads + 1,
                   sudoCache := aupsert st.sudoCache uid
                     ⟨decide (uid ∈ s.sudoUsers), t1 + CACHE_EXPIRY⟩ }) := by
    unfold is_sudo_miss
    simp [how, hdb]
  have hnlt : ¬ (t3 < t1 + CACHE_EXPIRY) := by omega
  rw [hmiss1, h1]
  simp only [is_sudo, alookup_aupsert_self, hnlt, if_false]
  unfold is_sudo_miss
  simp [how, hdb, alookup_aupsert_self]

/-- After the TTL has elapsed, a fresh `is_premium` call with a reachable
store re-reads the store and rewrites the cache entry with a TTL window
starting at the new check time. -/
lemma is_premium_fresh (uid : Nat) (t1 t3 : Int) (st : BotState) (s : Store)
    (hp : alookup st.premiumCache uid = none)
    (hdb : st.db = some s)
    (hge : t1 + CACHE_EXPIRY ≤ t3) :
    (is_premium uid t3 (is_premium uid t1 st).2).2.premiumReads
        = st.premiumReads + 2
    ∧ alookup (is_premium uid t3 (is_premium uid t1 st).2).2.premiumCache uid
        = some ⟨(is_premium uid t3 (is_premium uid t1 st).2).1,
                t3 + CACHE_EXPIRY⟩ := by
  have hmiss1 : is_premium uid t1 st = is_premium_miss uid t1 st := by
    simp [is_premium, hp]
  obtain ⟨pc1, _, _, _, _, _, dbf1⟩ := is_premium_miss_spec uid t1 st
  obtain ⟨s2, hdb2, _, _, _⟩ := dbf1 s hdb
  have hnlt : ¬ (t3 < t1 + CACHE_EXPIRY) := by omega
  have h2 : is_premium uid t3 (is_premium_miss uid t1 st).2
      = is_premium_miss uid t3 (is_premium_miss uid t1 st).2 := by
    simp [is_premium, pc1, hnlt]
  obtain ⟨pc2, _, _, _, _, _, dbf2⟩ :=
    is_premium_miss_spec uid t3 (is_premium_miss uid t1 st).2
  have hr1 := is_premium_miss_reads uid t1 st s hdb
  have hr2 := is_premium_miss_reads uid t3 (is_premium_miss uid t1 st).2 s2 hdb2
  rw [hmiss1, h2]
  exact ⟨by omega, pc2⟩

/--
Claim C7 counterexample: for the configured owner, a resolver call after
the TTL has elapsed does NOT perform a fresh backing-store read.  User 5
is the owner; the first `is_sudo` call at time 0 caches `true` without
reading the store, and the call at time 1000 (well past the 60-second
TTL) again resolves via the owner comparison: the store read counter is
still 0, contradicting the claim that every post-TTL call performs a
fresh backing-store read.
-/
theorem C7_counterexample :
    (is_sudo 5 0 c7State).1 = true
    ∧ (is_sudo 5 1000 (is_sudo 5 0 c7State).2).2.sudoReads = 0 := by decide

/--
Claim C7 (corrected): two resolver calls (`is_sudo`, `is_premium`, or
`has_valid_token`) for the same user within the cache TTL window return
identical results and the second call changes nothing — no backing-store
read, no cache write.  A call after the TTL has elapsed performs the
real check again — which reads the backing store when the user is not
the configured owner and the store is reachable (`is_sudo`), or whenever
the store is reachable (`is_premium`) — and refreshes the cache entry
with a new TTL window starting at the new check time.  For the owner the
fresh `is_sudo` check resolves by identifier comparison without any
store read (see the counterexample).
-/
theorem C7_amended :
    (∀ (uid : Nat) (t1 t2 : Int) (st : BotState),
        alookup st.sudoCache uid = none → t2 < t1 + CACHE_EXPIRY →
        is_sudo uid t2 (is_sudo uid t1 st).2 = is_sudo uid t1 st)
    ∧ (∀ (uid : Nat) (t1 t2 : Int) (st : BotState),
        alookup st.premiumCache uid = none → t2 < t1 + CACHE_EXPIRY →
        is_premium uid t2 (is_premium uid t1 st).2 = is_premium uid t1 st)
    ∧ (∀ (uid : Nat) (t1 t2 : Int) (st : BotState),
        alookup st.sudoCache uid = none → alookup st.premiumCache uid = none →
        alookup st.tokenCache uid = none → t2 < t1 + CACHE_EXPIRY →
        has_valid_token uid t2 (has_valid_token uid t1 st).2
          = has_valid_token uid t1 st)
    ∧ (∀ (uid : Nat) (t1 t3 : Int) (st : BotState) (s : Store),
        alookup st.sudoCache uid = none → ¬ st.owner = some uid →
        st.db = some s → t1 + CACHE_EXPIRY ≤ t3 →
        (is_sudo uid t3 (is_sudo uid t1 st).2).2.sudoReads = st.sudoReads + 2
        ∧ alookup (is_sudo uid t3 (is_sudo uid t1 st).2).2.sudoCache uid
            = some ⟨(is_sudo uid t3 (is_sudo uid t1 st).2).1, t3 + CACHE_EXPIRY⟩
        ∧ (is_sudo uid t3 (is_sudo uid t1 st).2).1 = decide (uid ∈ s.sudoUsers))
    ∧ (∀ (uid : Nat) (t1 t3 : Int) (st : BotState) (s : Store),
        alookup st.premiumCache uid = none →
        st.db = some s → t1 + CACHE_EXPIRY ≤ t3 →
        (is_premium uid t3 (is_premium uid t1 st).2).2.premiumReads
            = st.premiumReads + 2
        ∧ alookup (is_premium uid t3 (is_premium uid t1 st).2).2.premiumCache uid
            = some ⟨(is_premium uid t3 (is_premium uid t1 st).2).1,
                    t3 + CACHE_EXPIRY⟩) :=
  ⟨fun uid t1 t2 st h hlt => is_sudo_ttl uid t1 t2 st h hlt,
   fun uid t1 t2 st h hlt => is_premium_ttl uid t1 t2 st h hlt,
   fun uid t1 t2 st hs hp ht hlt => hvt_ttl uid t1 t2 st hs hp ht hlt,
   fun uid t1 t3 st s hs how hdb hge => is_sudo_fresh uid t1 t3 st s hs how hdb hge,
   fun uid t1 t3 st s hp hdb hge => is_premium_fresh uid t1 t3 st s hp hdb hge⟩

/-- Witness for C7_amended: concrete hit-within-TTL and fresh-after-TTL
runs over a cold-cache state. -/
theorem C7_witness :
    is_sudo 1 30 (is_sudo 1 0 c7WitnessState).2 = is_sudo 1 0 c7WitnessState
    ∧ is_premium 2 30 (is_premium 2 0 c7WitnessState).2
        = is_premium 2 0 c7WitnessState
    ∧ has_valid_token 9 30 (has_valid_token 9 0 c7WitnessState).2
        = has_valid_token 9 0 c7WitnessState
    ∧ (is_sudo 4 100 (is_sudo 4 0 c7WitnessState).2).2.sudoReads
        = c7WitnessState.sudoReads + 2
    ∧ (is_premium 2 100 (is_premium 2 0 c7WitnessState).2).2.premiumReads
        = c7WitnessState.premiumReads + 2 :=
  ⟨C7_amended.1 1 0 30 c7WitnessState rfl (by decide),
   C7_amended.2.1 2 0 30 c7WitnessState rfl (by decide),
   C7_amended.2.2.1 9 0 30 c7WitnessState rfl rfl rfl (by decide),
   (C7_amended.2.2.2.1 4 0 100 c7WitnessState ⟨[1], [(2, 50)], [9], []⟩
      rfl (by decide) rfl (by decide)).1,
   (C7_amended.2.2.2.2 2 0 100 c7WitnessState ⟨[1], [(2, 50)], [9], []⟩
      rfl rfl (by decide)).1⟩

/--
Claim C1 counterexample: user 7 is in the sudo set and holds a premium
record that expired at time 5; at time 10 the gated-command access check
grants access (via sudo), but the expired premium record is still in the
store afterwards — `check_access` short-circuits on `is_sudo`, so the
self-healing deletion inside `is_premium` never runs.
-/
theorem C1_counterexample :
    (check_access 7 10 c1State).1 = true
    ∧ (check_access 7 10 c1State).2.db = some ⟨[7], [(7, 5)], [], []⟩ := by
  decide

/--
Claim C1 (corrected): a user in the sudo set (or the configured owner)
with an expired premium record resolves to Sudo — access is granted —
but the expired premium record is NOT deleted as a side effect of that
resolution: the store is completely untouched, because the premium check
is short-circuited by the sudo check.  The stale record is deleted only
when `is_premium` itself runs (second conjunct), e.g. for a non-sudo
user or a direct premium query.
-/
theorem C1_amended (uid : Nat) (now : Int) (st : BotState)
    (hsc : alookup st.sudoCache uid = none)
    (hsudo : st.owner = some uid ∨ ∃ s, st.db = some s ∧ uid ∈ s.sudoUsers) :
    ((check_access uid now st).1 = true
      ∧ (check_access uid now st).2.db = st.db)
    ∧ (∀ (s : Store) (expiry : Int), st.db = some s →
        alookup st.premiumCache uid = none →
        alookup s.premiumUsers uid = some expiry → expiry ≤ now →
        (is_premium uid now st).1 = false
        ∧ (is_premium uid now st).2.db
            = some { s with premiumUsers := aremove s.premiumUsers uid }) := by
  have hs1 : is_sudo uid now st = is_sudo_miss uid now st := by
    simp [is_sudo, hsc]
  have hr : (is_sudo_miss uid now st).1 = true := by
    unfold is_sudo_miss
    rcases hsudo with h | ⟨s, hdb, hmem⟩
    · simp [h]
    · by_cases how : st.owner = some uid
      · simp [how]
      · simp [how, hdb, hmem]
  constructor
  · have hca : check_access uid now st = (true, (is_sudo_miss uid now st).2) := by
      simp [check_access, hs1, hr]
    rw [hca]
    exact ⟨rfl, (is_sudo_miss_spec uid now st).2.2.2.1⟩
  · intro s expiry hdb hpc hrec hexp
    have hmiss : is_premium uid now st = is_premium_miss uid now st := by
      simp [is_premium, hpc]
    rw [hmiss]
    unfold is_premium_miss
    have hnlt : ¬ (now < expiry) := by omega
    simp [hdb, hrec, hnlt]

/-- Witness for C1_amended: the state of the counterexample. -/
theorem C1_witness :
    ((check_access 7 10 c1State).1 = true
      ∧ (check_access 7 10 c1State).2.db = c1State.db)
    ∧ ((is_premium 7 10 c1State).1 = false
      ∧ (is_premium 7 10 c1State).2.db
          = some { (⟨[7], [(7, 5)], [], []⟩ : Store) with
                    premiumUsers := aremove [(7, 5)] 7 }) := by
  have h := C1_amended 7 10 c1State rfl
    (Or.inr ⟨⟨[7], [(7, 5)], [], []⟩, rfl, by decide⟩)
  exact ⟨h.1, h.2 ⟨[7], [(7, 5)], [], []⟩ 5 rfl rfl rfl (by decide)⟩

/-! ## Claim theorems: premium grants and the daily-limit gate -/

/-- `is_premium` preserves the user, sudo and token collections of a
reachable store (it may only drop a stale premium record). -/
lemma is_premium_db_users (uid : Nat) (now : Int) (st : BotState) (s : Store)
    (hdb : st.db = some s) :
    ∃ s2, (is_premium uid now st).2.db = some s2
      ∧ s2.sudoUsers = s.sudoUsers ∧ s2.tokens = s.tokens
      ∧ s2.users = s.users := by
  unfold is_premium
  cases hc : alookup st.premiumCache uid with
  | none => exact (is_premium_miss_spec uid now st).2.2.2.2.2.2 s hdb
  | some c =>
    by_cases hlt : now < c.expiry
    · simp only [hlt, if_true]
      exact ⟨s, hdb, rfl, rfl, rfl⟩
    · simp only [hlt, if_false]
      exact (is_premium_miss_spec uid now st).2.2.2.2.2.2 s hdb

/-- `quiz_count_today` depends on the store only through its `users`
collection. -/
lemma quiz_count_today_congr (s1 s2 : Store) (uid : Nat) (today : Int)
    (h : s1.users = s2.users) :
    quiz_count_today s1 uid today = quiz_count_today s2 uid today := by
  unfold quiz_count_today
  rw [h]

/--
Claim C10 (confirmed): the daily quiz limit of `handle_document` depends
only on the premium check, never on the sudo check.  For a user in the
sudo set for whom `is_premium` resolves to false: once the recorded
count for the current day has reached the limit the upload is refused
and nothing is sent (first conjunct, regardless of the uploaded file);
and when the upload parses to more questions than the remaining quota,
exactly the first remaining-quota questions are dispatched, with the
truncation warning appended to the error list (second conjunct).
-/
theorem C10_daily_limit (limit uid : Nat) (now today : Int) (ft : Bool)
    (content : String) (st : BotState) (s : Store)
    (hdb : st.db = some s)
    (hsu : uid ∈ s.sudoUsers)
    (hprem : (is_premium uid now st).1 = false) :
    (limit ≤ quiz_count_today s uid today →
      handle_document limit uid now today ft content st
        = (.limitRefused, (is_premium uid now st).2))
    ∧ (quiz_count_today s uid today < limit →
        (limit : Int) - (quiz_count_today s uid today : Int)
            < ((parse_quiz_file content).1.length : Int) →
        (handle_document limit uid now today true content st).1
          = .sent ((parse_quiz_file content).1.take
                ((limit : Int) - (quiz_count_today s uid today : Int)).toNat)
              ((parse_quiz_file content).2
                ++ [truncMsg
                     ((limit : Int)
                       - (quiz_count_today s uid today : Int)).toNat])) := by
  obtain ⟨s2, hdb2, hsu2, htk2, hus2⟩ := is_premium_db_users uid now st s hdb
  have hqc : quiz_count_today s2 uid today = quiz_count_today s uid today :=
    quiz_count_today_congr s2 s uid today hus2
  constructor
  · intro hge
    unfold handle_document
    simp [hprem, hdb2, hqc, hge]
  · intro hlt hexceed
    have hnot : ¬ (limit ≤ quiz_count_today s uid today) := by omega
    have hne : ¬ (parse_quiz_file content).1 = [] := by
      intro h0
      rw [h0] at hexceed
      simp at hexceed
      omega
    have hpos : ¬ ((limit : Int) - (quiz_count_today s uid today : Int) ≤ 0) := by
      omega
    unfold handle_document
    simp [hprem, hdb2, hqc, hnot, hne, hpos, hexceed]

/-- Witness for C10_daily_limit: user 3 is sudo but not premium, with 1
quiz recorded today.  At limit 1 the upload is refused; at limit 3 a
three-question upload is truncated to the remaining quota of 2. -/
theorem C10_witness :
    handle_document 1 3 100 0 true "irrelevant" c10State
      = (.limitRefused, (is_premium 3 100 c10State).2)
    ∧ (handle_document 3 3 100 0 true
        "Q\nA\nB\nC\nD\nAnswer: 1\n\nR\nE\nF\nG\nH\nAnswer: 2\n\nS\nI\nJ\nK\nL\nAnswer: 3"
        c10State).1
      = .sent [⟨"Q", ["A", "B", "C", "D"], 0, none⟩,
               ⟨"R", ["E", "F", "G", "H"], 1, none⟩]
          ["⚠️ Only first 2 questions sent due to daily limit"] := by
  constructor
  · exact (C10_daily_limit 1 3 100 0 true "irrelevant" c10State
      ⟨[3], [], [], [⟨3, some 0, 1⟩]⟩ rfl (by decide) (by decide)).1 (by decide)
  · rw [(C10_daily_limit 3 3 100 0 true
      "Q\nA\nB\nC\nD\nAnswer: 1\n\nR\nE\nF\nG\nH\nAnswer: 2\n\nS\nI\nJ\nK\nL\nAnswer: 3"
      c10State ⟨[3], [], [], [⟨3, some 0, 1⟩]⟩ rfl (by decide) (by decide)).2
      (by decide) (by decide)]
    decide

/--
Claim C8 (confirmed): premium-grant duration parsing maps `2hr` to 2
hours, `1month` to 30 days, `3years` to 3 × 365 days; unit names are
case-insensitive (the argument is lowercased first) with an optional
trailing `s`; `abc` and `5weeks` are rejected; every rejected string
leaves the store untouched (no premium record written); and a successful
grant records `expiry_date = now + duration`.
-/
theorem C8_duration :
    parse_duration "2hr" = some (2 * 3600)
    ∧ parse_duration "1month" = some (30 * 86400)
    ∧ parse_duration "3years" = some (3 * (365 * 86400))
    ∧ parse_duration "2HR" = some (2 * 3600)
    ∧ parse_duration "2hrs" = some (2 * 3600)
    ∧ parse_duration "abc" = none
    ∧ parse_duration "5weeks" = none
    ∧ (∀ (t : Option Nat) (d : String) (now : Int) (st : BotState),
        parse_duration d = none → add_premium t d now st = st)
    ∧ (∀ (uid : Nat) (d : String) (secs : Nat) (now : Int) (st : BotState)
        (s : Store), st.db = some s → parse_duration d = some secs →
        (add_premium (some uid) d now st).db
          = some { s with premiumUsers := aupsert s.premiumUsers uid (now + secs) }
        ∧ alookup (aupsert s.premiumUsers uid ((now : Int) + secs)) uid
            = some ((now : Int) + secs)) := by
  refine ⟨by decide, by decide, by decide, by decide, by decide, by decide,
    by decide, ?_, ?_⟩
  · intro t d now st hnone
    unfold add_premium
    rw [hnone]
  · intro uid d secs now st s hdb hsome
    unfold add_premium
    rw [hsome, hdb]
    exact ⟨rfl, alookup_aupsert_self s.premiumUsers uid ((now : Int) + secs)⟩

/-- Witness for C8_duration: both store-level conjuncts at concrete
inputs: a rejected string leaves a concrete state unchanged, a granted
`2hr` records expiry 100 + 7200. -/
theorem C8_witness :
    add_premium (some 1) "abc" 0
        (⟨some emptyStore, [], [], [], none, 0, 0, 0⟩ : BotState)
      = (⟨some emptyStore, [], [], [], none, 0, 0, 0⟩ : BotState)
    ∧ (add_premium (some 8) "2hr" 100
        (⟨some emptyStore, [], [], [], none, 0, 0, 0⟩ : BotState)).db
      = some { emptyStore with premiumUsers := aupsert emptyStore.premiumUsers 8 (100 + 2 * 3600) } :=
  ⟨C8_duration.2.2.2.2.2.2.2.1 (some 1) "abc" 0 _ (by decide),
   (C8_duration.2.2.2.2.2.2.2.2 8 "2hr" (2 * 3600) 100
      ⟨some emptyStore, [], [], [], none, 0, 0, 0⟩ emptyStore rfl (by decide)).1⟩

end TxtQuiz
